import Mathlib

/-!
Verification of the quantitative transaction-analysis pipeline of the
financial-agent repository, shallowly embedded from the Python sources
utils/data_loader.py, agent/profile_builder.py, agent/trend_analyzer.py and
agent/budgeting_expert.py.  The LLM narrative stages are out of scope.

Modelling conventions:
* a pandas DataFrame of transactions is a list of rows plus a flag recording
  whether the derived month column has been added (stage functions mutate the
  frame they are given, so every stage returns the frame it leaves behind);
* a timestamp is modelled at the granularity the code uses it, namely the
  calendar month obtained by dt.to_period; the value none models a raw
  timestamp that pandas to_datetime cannot parse (to_datetime is called with
  its default errors policy, which raises, so the stages that call it return
  an Except value);
* a raw amount is an Option of a rational; none models a non-numeric entry,
  which pd.to_numeric with errors coerce turns into NaN and fillna(0) into 0;
* Python str.lower, str.strip, substring membership and string ordering are
  modelled on the character lists of Lean strings;
* number-valued outputs are kept as rationals; the source formats them as
  fixed-precision strings, which is presentation only and not modelled.
-/

/-- Model of Python str.lower (the sources only classify ascii category
labels, for which Char.toLower agrees with Python). -/
def lowerStr (s : String) : String := ⟨s.data.map Char.toLower⟩

/-- Model of Python str.strip: drop leading and trailing whitespace. -/
def stripStr (s : String) : String :=
  ⟨((s.data.dropWhile Char.isWhitespace).reverse.dropWhile Char.isWhitespace).reverse⟩

/-- Model of the Python substring test (needle in hay). -/
def containsStr (hay needle : String) : Bool := decide (needle.data <:+: hay.data)

/-- Lexicographic comparison of character lists by code point, the order
Python uses on strings and pandas uses on string group keys. -/
def charListLeB : List Char → List Char → Bool
  | [], _ => true
  | _ :: _, [] => false
  | x :: xs, y :: ys =>
    if x.toNat < y.toNat then true
    else if y.toNat < x.toNat then false
    else charListLeB xs ys

/-- Boolean string order used for sorted group keys. -/
def strLeB (a b : String) : Bool := charListLeB a.data b.data

/-- Propositional form of strLeB, as required by List.insertionSort. -/
def strLe (a b : String) : Prop := strLeB a b = true

instance strLe.decRel : DecidableRel strLe :=
  fun a b => inferInstanceAs (Decidable (_ = true))

/-- Calendar month key, as produced by dt.to_period: a month index that is
monotone in time (for concrete inputs we use small naturals). -/
abbrev Month := Nat

/-- One transaction record.  The user_id column is not carried: every stage
is invoked on the slice of a single user. -/
structure Row where
  timestamp : Option Month
  amount : Option ℚ
  direction : String
  category : String
  merchant_name : String
deriving DecidableEq

/-- A transactions DataFrame: the rows plus a flag recording whether the
derived month column has been added by a stage. -/
structure DataFrame where
  rows : List Row
  monthCol : Bool
deriving DecidableEq

/-- The numeric amount of a row after pd.to_numeric(...).fillna(0):
non-numeric entries count as 0. -/
def amt (r : Row) : ℚ := r.amount.getD 0

/-- Sum of the amount column of a list of rows. -/
def sumAmounts (rows : List Row) : ℚ := (rows.map amt).sum

/-- Effect on one row of the assignment
df[amount] = pd.to_numeric(df[amount], errors ~ coerce).fillna(0). -/
def coerceAmount (r : Row) : Row := { r with amount := some (r.amount.getD 0) }

/-- The amount-coercion assignment applied to a whole frame (in place in the
source; modelled by returning the written frame). -/
def coerceAmounts (df : DataFrame) : DataFrame := { df with rows := df.rows.map coerceAmount }

/-- Effect of df[month] = df[timestamp].dt.to_period(M): the month column is
now present (its per-row values are determined by the timestamps). -/
def addMonthCol (df : DataFrame) : DataFrame := { df with monthCol := true }

/-- Whether pd.to_datetime(df[timestamp]) succeeds: with the default errors
policy it raises as soon as one value fails to parse. -/
def toDatetimeOk (df : DataFrame) : Bool := df.rows.all (fun r => r.timestamp.isSome)

/-- The error carried by the exception that pd.to_datetime raises on an
unparseable value. -/
def toDatetimeError : String := "time data cannot be parsed"

/-- Shared data preparation of trend_analyzer.py lines 15-17 and
budgeting_expert.py lines 14-16 (identical line triples): parse timestamps,
add the month column, coerce amounts.  Callers check toDatetimeOk first. -/
def prepFrame (df : DataFrame) : DataFrame := addMonthCol (coerceAmounts df)

/-- Group key sum, modelling df.groupby(key)[amount].sum(): one pair per
distinct key, keys listed in sorted order (pandas groupby sorts keys). -/
def groupSum {κ : Type} [DecidableEq κ] (le : κ → κ → Prop) [DecidableRel le]
    (key : Row → κ) (rows : List Row) : List (κ × ℚ) :=
  (List.insertionSort le ((rows.map key).dedup)).map
    (fun k => (k, sumAmounts (rows.filter (fun r => decide (key r = k)))))

/-- Series lookup with the implicit 0 default the source relies on
(fillna(0) joins and Series.get with default 0). -/
def getOr0 (xs : List (String × ℚ)) (c : String) : ℚ := ((xs.lookup c).getD 0)

/-- Descending-by-value order on labelled rationals (ties keep the earlier
element, as pandas nlargest with keep first does under a stable sort). -/
def valueDesc (a b : String × ℚ) : Prop := b.2 ≤ a.2

instance valueDesc.decRel : DecidableRel valueDesc :=
  fun a b => inferInstanceAs (Decidable (_ ≤ _))

instance valueDesc.total : IsTotal (String × ℚ) valueDesc :=
  ⟨fun a b => le_total b.2 a.2⟩

instance valueDesc.trans : IsTrans (String × ℚ) valueDesc :=
  ⟨fun _ _ _ h1 h2 => le_trans h2 h1⟩

/-- Ascending-by-value order on labelled rationals. -/
def valueAsc (a b : String × ℚ) : Prop := a.2 ≤ b.2

instance valueAsc.decRel : DecidableRel valueAsc :=
  fun a b => inferInstanceAs (Decidable (_ ≤ _))

instance valueAsc.total : IsTotal (String × ℚ) valueAsc :=
  ⟨fun a b => le_total a.2 b.2⟩

instance valueAsc.trans : IsTrans (String × ℚ) valueAsc :=
  ⟨fun _ _ _ h1 h2 => le_trans h1 h2⟩

/-- Series.nlargest n: the n largest entries by value, in descending order,
ties resolved towards the earlier entry. -/
def nlargest (n : Nat) (xs : List (String × ℚ)) : List (String × ℚ) :=
  (List.insertionSort valueDesc xs).take n

/-- Series.nsmallest n: the n smallest entries by value, in ascending order. -/
def nsmallest (n : Nat) (xs : List (String × ℚ)) : List (String × ℚ) :=
  (List.insertionSort valueAsc xs).take n

/-! ### utils/data_loader.py -/

/-- The schema of the raw table handed to load_transactions (only the column
names matter to the validation the loader performs). -/
structure RawTable where
  columns : List String
deriving DecidableEq

/-- Whether the file extension is one the loader reads. -/
def supportedExtension (ext : String) : Bool :=
  lowerStr ext == ".xlsx" || lowerStr ext == ".xls" || lowerStr ext == ".csv"

/-- load_transactions, file reading abstracted to the already-decoded table:
unsupported extensions and a missing user_id column yield None, everything
else is returned as loaded.  No other column is validated. -/
def load_transactions (file_extension : String) (t : RawTable) : Option RawTable :=
  if supportedExtension file_extension then
    if ("user_id") ∈ t.columns then some t else none
  else none

/-! ### agent/budgeting_expert.py : map_category -/

/-- The Needs keyword list of map_category. -/
def needs_keywords : List String :=
  ["groceries", "utilities", "rent", "transport", "bills", "emi"]

/-- The Wants keyword list of map_category. -/
def wants_keywords : List String :=
  ["shopping", "food", "travel", "entertainment", "recharge", "lifestyle"]

/-- map_category from budgeting_expert.py: lowercase the label, test the
Needs keywords first, then the Wants keywords, default Other. -/
def map_category (cat : String) : String :=
  let c := lowerStr cat
  if needs_keywords.any (fun k => containsStr c k) then "Needs"
  else if wants_keywords.any (fun k => containsStr c k) then "Wants"
  else "Other"

/-! ### agent/profile_builder.py : analyze_transactions_with_pandas -/

/-- The debit filter of profile_builder.py line 15: direction is stripped and
lowercased before the comparison. -/
def profileDebitFilter (r : Row) : Bool := lowerStr (stripStr r.direction) == "debit"

/-- The debit subset the profile stage aggregates over (computed on the frame
after the amount coercion of line 12). -/
def profileDebit (df : DataFrame) : List Row :=
  (coerceAmounts df).rows.filter profileDebitFilter

/-- Merchant frequency table, modelling value_counts(): one pair per distinct
merchant with its row count, sorted by descending count. -/
def merchantCounts (rows : List Row) : List (String × Nat) :=
  List.insertionSort (fun a b : String × Nat => b.2 ≤ a.2)
    (((rows.map (fun r => r.merchant_name)).dedup).map
      (fun m => (m, (rows.filter (fun r => r.merchant_name == m)).length)))

/-- The numeric fields of the analysis dictionary the profile stage returns
(the transaction_samples field, a random to_string excerpt of the input, is
presentation only and not modelled). -/
structure AnalysisSummary where
  category_spending : List (String × ℚ)
  top_spending_categories : List (String × ℚ)
  top_merchants_by_frequency : List (String × Nat)
  total_debit : ℚ
  total_transactions : Nat
  average_transaction_amount : ℚ
  unique_merchants : Nat
deriving DecidableEq

/-- Result of the profile stage: either the no-spending summary dictionary or
the analysis dictionary. -/
inductive ProfileResult
  | noSpendingData
  | ok (a : AnalysisSummary)
deriving DecidableEq

/-- analyze_transactions_with_pandas: coerce amounts (mutating the frame),
filter debits with normalized direction, and either return the no-spending
sentinel or the aggregated summary.  The first component is the frame the
stage leaves behind. -/
def analyze_transactions_with_pandas (df : DataFrame) : DataFrame × ProfileResult :=
  let debit := profileDebit df
  (coerceAmounts df,
    if debit.isEmpty then .noSpendingData
    else .ok {
      category_spending := groupSum strLe (fun r => r.category) debit
      top_spending_categories := nlargest 5 (groupSum strLe (fun r => r.category) debit)
      top_merchants_by_frequency := (merchantCounts debit).take 5
      total_debit := sumAmounts debit
      total_transactions := debit.length
      average_transaction_amount := sumAmounts debit / debit.length
      unique_merchants := ((debit.map (fun r => r.merchant_name)).dedup).length })

/-- The dictionary returned by the profile stage, without the frame. -/
def profileResultOf (df : DataFrame) : ProfileResult :=
  (analyze_transactions_with_pandas df).2

/-! ### agent/trend_analyzer.py : analyze_trends_with_pandas -/

/-- The debit filter of trend_analyzer.py line 19 and budgeting_expert.py
line 18: a plain equality test, with no strip or lowercase. -/
def exactDebitFilter (r : Row) : Bool := r.direction == "debit"

/-- The debit subset of the prepared frame, shared by the trend and budget
stages (both compute it by the same line). -/
def exactDebit (df : DataFrame) : List Row :=
  (prepFrame df).rows.filter exactDebitFilter

/-- sorted(debit_df[month].unique()): the distinct months of a row list in
ascending order. -/
def monthsOf (rows : List Row) : List Month :=
  List.insertionSort (fun a b : Month => a ≤ b) ((rows.filterMap (fun r => r.timestamp)).dedup)

/-- The rows of one calendar month. -/
def rowsInMonth (m : Month) (rows : List Row) : List Row :=
  rows.filter (fun r => r.timestamp == some m)

/-- The last and previous month (months[-1], months[-2]) of the trend debit
subset, if at least two distinct months are present. -/
def lastTwoMonths (df : DataFrame) : Option (Month × Month) :=
  match (monthsOf (exactDebit df)).reverse with
  | lastM :: prevM :: _ => some (lastM, prevM)
  | _ => none

/-- Mean amount over the whole trend debit subset (all months). -/
def trendMean (df : DataFrame) : ℚ :=
  sumAmounts (exactDebit df) / ((exactDebit df).length : ℚ)

/-- Sample variance (the square of the pandas default std with ddof 1) of the
amounts over the whole trend debit subset. -/
def trendVar (df : DataFrame) : ℚ :=
  ((exactDebit df).map (fun r => (amt r - trendMean df) ^ 2)).sum /
    (((exactDebit df).length - 1 : Nat) : ℚ)

/-- Decidable rendering over the rationals of the burst test
amount > mean + 3 * sqrt variance of trend_analyzer.py lines 57-61 (the
threshold is mean plus three standard deviations); burstExceeds_iff proves it
equivalent to the real-number comparison. -/
def burstExceeds (mean svar a : ℚ) : Bool :=
  decide (0 < a - mean) && decide (9 * svar < (a - mean) ^ 2)

/-- Per-category sums of a row list (groupby(category)[amount].sum()). -/
def catSums (rows : List Row) : List (String × ℚ) :=
  groupSum strLe (fun r => r.category) rows

/-- The sorted union of the category labels of two per-category sum tables:
the index of the outer-join DataFrame of trend_analyzer.py lines 47-50. -/
def unionKeys (a b : List (String × ℚ)) : List String :=
  List.insertionSort strLe (((a.map (fun p => p.1)) ++ (b.map (fun p => p.1))).dedup)

/-- The per-category change column: outer join of the last-month and
previous-month category sums with missing categories filled with 0, then
last minus previous. -/
def categoryDeltas (lastRows prevRows : List Row) : List (String × ℚ) :=
  (unionKeys (catSums lastRows) (catSums prevRows)).map
    (fun c => (c, getOr0 (catSums lastRows) c - getOr0 (catSums prevRows) c))

/-- The burst report: the no-burst message when no last-month transaction
exceeds the threshold, otherwise the flagged rows. -/
inductive BurstReport
  | noBurst
  | bursts (rows : List Row)
deriving DecidableEq

/-- The analysis dictionary of the trend stage (the month names are kept as
month keys rather than formatted strings). -/
structure TrendSummary where
  last_month : Month
  prev_month : Month
  total_spend_change_pct : ℚ
  top_category_increases : List (String × ℚ)
  top_category_decreases : List (String × ℚ)
  burst_report : BurstReport
deriving DecidableEq

/-- Result of the trend stage when to_datetime succeeds: either the
not-enough-data sentinel dictionary or the analysis dictionary. -/
inductive TrendResult
  | notEnoughData
  | ok (t : TrendSummary)
deriving DecidableEq

/-- The analysis dictionary built in the main branch of
analyze_trends_with_pandas, given the last and previous month. -/
def mkTrendSummary (df : DataFrame) (lastM prevM : Month) : TrendSummary :=
  let debit := exactDebit df
  let lastRows := rowsInMonth lastM debit
  let prevRows := rowsInMonth prevM debit
  let lastTotal := sumAmounts lastRows
  let prevTotal := sumAmounts prevRows
  let deltas := categoryDeltas lastRows prevRows
  let bursts := lastRows.filter (fun r => burstExceeds (trendMean df) (trendVar df) (amt r))
  { last_month := lastM
    prev_month := prevM
    total_spend_change_pct :=
      if prevTotal > 0 then (lastTotal - prevTotal) / prevTotal * 100 else 0
    top_category_increases := nlargest 3 deltas
    top_category_decreases := nsmallest 3 deltas
    burst_report := if bursts.isEmpty then .noBurst else .bursts bursts }

/-- analyze_trends_with_pandas: to_datetime raises on an unparseable
timestamp; otherwise the frame is mutated (month column, coerced amounts) and
the stage returns the sentinel when fewer than two distinct debit months
exist, else the analysis dictionary. -/
def analyze_trends_with_pandas (df : DataFrame) : Except String (DataFrame × TrendResult) :=
  if toDatetimeOk df then
    .ok (prepFrame df,
      match lastTwoMonths df with
      | some (lastM, prevM) => .ok (mkTrendSummary df lastM prevM)
      | none => .notEnoughData)
  else .error toDatetimeError

/-- The dictionary returned by the trend stage, without the frame; none when
the stage raises. -/
def trendResultOf (df : DataFrame) : Option TrendResult :=
  match analyze_trends_with_pandas df with
  | .ok (_, r) => some r
  | .error _ => none

/-! ### agent/budgeting_expert.py : create_budget_baseline_with_pandas -/

/-- Boolean order on (month, bucket) group keys: by month, then by bucket
label, the order pandas uses for a two-level group key. -/
def monthCatLeB (a b : Month × String) : Bool :=
  a.1 < b.1 || (a.1 == b.1 && strLeB a.2 b.2)

/-- Propositional form of monthCatLeB. -/
def monthCatLe (a b : Month × String) : Prop := monthCatLeB a b = true

instance monthCatLe.decRel : DecidableRel monthCatLe :=
  fun a b => inferInstanceAs (Decidable (_ = true))

/-- The month-by-bucket sums of the budget stage:
groupby([month, budget_category])[amount].sum(), one entry per observed
(month, bucket) pair; the unstack step fills unobserved pairs with 0, which
downstream is the per-bucket sum over exactly these entries. -/
def budgetPairs (df : DataFrame) : List ((Month × String) × ℚ) :=
  groupSum monthCatLe (fun r => (r.timestamp.getD 0, map_category r.category)) (exactDebit df)

/-- The distinct months observed in the budget debit subset: the row index of
the unstacked month-by-bucket matrix. -/
def budgetMonths (df : DataFrame) : List Month :=
  ((exactDebit df).filterMap (fun r => r.timestamp)).dedup

/-- The observed budget buckets: the column labels of the unstacked
month-by-bucket matrix. -/
def budgetBuckets (df : DataFrame) : List String :=
  ((budgetPairs df).map (fun p => p.1.2)).dedup

/-- The mean over months of one bucket column of the zero-filled matrix: the
column total is the sum of that bucket's observed (month, bucket) sums, and
every column has one entry per observed month. -/
def bucketAvg (df : DataFrame) (b : String) : ℚ :=
  (((budgetPairs df).filter (fun p => decide (p.1.2 = b))).map (fun p => p.2)).sum /
    ((budgetMonths df).length : ℚ)

/-- avg_monthly_spend as a series over the observed buckets. -/
def bucketAvgs (df : DataFrame) : List (String × ℚ) :=
  (budgetBuckets df).map (fun b => (b, bucketAvg df b))

/-- The baseline dictionary of the budget stage (numeric values; the source
formats them as strings). -/
structure BudgetBaseline where
  avg_monthly_spend_needs : ℚ
  avg_monthly_spend_wants : ℚ
  avg_monthly_spend_other : ℚ
  total_avg_monthly_spend : ℚ
deriving DecidableEq

/-- create_budget_baseline_with_pandas: to_datetime raises on an unparseable
timestamp; otherwise the frame is mutated and the baseline dictionary is
always produced, with Series.get defaulting each absent bucket to 0 and the
total being the sum of the observed bucket averages.  There is no empty-data
sentinel in this stage. -/
def create_budget_baseline_with_pandas (df : DataFrame) :
    Except String (DataFrame × BudgetBaseline) :=
  if toDatetimeOk df then
    .ok (prepFrame df,
      { avg_monthly_spend_needs := getOr0 (bucketAvgs df) ("Needs")
        avg_monthly_spend_wants := getOr0 (bucketAvgs df) ("Wants")
        avg_monthly_spend_other := getOr0 (bucketAvgs df) ("Other")
        total_avg_monthly_spend := ((bucketAvgs df).map (fun p => p.2)).sum })
  else .error toDatetimeError

/-- The baseline returned by the budget stage, without the frame; none when
the stage raises. -/
def budgetResultOf (df : DataFrame) : Option BudgetBaseline :=
  match create_budget_baseline_with_pandas df with
  | .ok (_, b) => some b
  | .error _ => none

/-! ### Concrete input frames used by witnesses and counterexamples -/

/-- Two debit months of rent, the month-on-month scenario frame. -/
def df5 : DataFrame :=
  ⟨[⟨some 1, some 1000, "debit", "rent", "m"⟩,
    ⟨some 2, some 1200, "debit", "rent", "m"⟩], false⟩

/-- The trend dictionary the pipeline produces on df5. -/
def t5 : TrendSummary := ⟨2, 1, 20, [("rent", 200)], [("rent", 200)], .noBurst⟩

/-- Two debit months whose previous-month total is negative. -/
def dfNeg : DataFrame :=
  ⟨[⟨some 1, some (-100), "debit", "x", "m"⟩,
    ⟨some 2, some 100, "debit", "x", "m"⟩], false⟩

/-- The trend dictionary the pipeline produces on dfNeg. -/
def tNeg : TrendSummary := ⟨2, 1, 0, [("x", 200)], [("x", 200)], .noBurst⟩

/-- Two debit months in which the only category shrinks. -/
def dfC6 : DataFrame :=
  ⟨[⟨some 1, some 100, "debit", "a", "m"⟩,
    ⟨some 2, some 40, "debit", "a", "m"⟩], false⟩

/-- The trend dictionary the pipeline produces on dfC6. -/
def tC6 : TrendSummary := ⟨2, 1, -60, [("a", -60)], [("a", -60)], .noBurst⟩

/-- Ten identical transactions of amount 100 over two months plus one
transaction of amount 10000 in the latest month (the burst scenario). -/
def dfBurst : DataFrame :=
  ⟨[⟨some 1, some 100, "debit", "x", "m"⟩,
    ⟨some 1, some 100, "debit", "x", "m"⟩,
    ⟨some 1, some 100, "debit", "x", "m"⟩,
    ⟨some 1, some 100, "debit", "x", "m"⟩,
    ⟨some 1, some 100, "debit", "x", "m"⟩,
    ⟨some 2, some 100, "debit", "x", "m"⟩,
    ⟨some 2, some 100, "debit", "x", "m"⟩,
    ⟨some 2, some 100, "debit", "x", "m"⟩,
    ⟨some 2, some 100, "debit", "x", "m"⟩,
    ⟨some 2, some 100, "debit", "x", "m"⟩,
    ⟨some 2, some 10000, "debit", "x", "mBig"⟩], false⟩

/-- The trend dictionary the pipeline produces on dfBurst: only the 10000
transaction is flagged as a burst. -/
def tBurst : TrendSummary :=
  ⟨2, 1, 2000, [("x", 10000)], [("x", 10000)],
    .bursts [⟨some 2, some 10000, "debit", "x", "mBig"⟩]⟩

/-- A Needs month and a Wants month for the budget baseline. -/
def df7 : DataFrame :=
  ⟨[⟨some 1, some 100, "debit", "rent", "m"⟩,
    ⟨some 2, some 50, "debit", "food", "m"⟩], false⟩

/-- The baseline the pipeline produces on df7. -/
def b7 : BudgetBaseline := ⟨50, 25, 0, 75⟩

/-- A single debit row whose direction is capitalized. -/
def dfDir : DataFrame := ⟨[⟨some 1, some 5, "Debit", "x", "m"⟩], false⟩

/-- The same single row with lowercase direction. -/
def dfDirLower : DataFrame := ⟨[⟨some 1, some 5, "debit", "x", "m"⟩], false⟩

/-- A frame with a single credit transaction and no debits. -/
def dfCredit : DataFrame := ⟨[⟨some 1, some 5, "credit", "x", "m"⟩], false⟩

/-- A frame whose debits all fall in one calendar month. -/
def dfOneMonth : DataFrame :=
  ⟨[⟨some 1, some 10, "debit", "x", "m"⟩,
    ⟨some 1, some 20, "debit", "y", "m"⟩], false⟩

/-- A frame with one unparseable timestamp among two good debit months. -/
def dfBadTs : DataFrame :=
  ⟨[⟨none, some 5, "debit", "x", "m"⟩,
    ⟨some 1, some 7, "debit", "x", "m"⟩,
    ⟨some 2, some 9, "debit", "x", "m"⟩], false⟩

/-- A frame with a non-numeric amount entry. -/
def dfMut : DataFrame := ⟨[⟨some 1, none, "debit", "x", "m"⟩], false⟩

/-! ### Supporting lemmas -/

/-- Sum of a pointwise sum of two maps splits. -/
theorem sum_map_add {α : Type} (l : List α) (f g : α → ℚ) :
    (l.map (fun x => f x + g x)).sum = (l.map f).sum + (l.map g).sum := by
  induction l with
  | nil => simp
  | cons a t ih => simp only [List.map_cons, List.sum_cons, ih]; ring

/-- Summing an indicator over a duplicate-free list containing the marked
key yields the marked value. -/
theorem sum_map_indicator {κ : Type} [DecidableEq κ] (ks : List κ) (a : κ) (x : ℚ)
    (hnd : ks.Nodup) (ha : a ∈ ks) :
    (ks.map (fun k => if a = k then x else 0)).sum = x := by
  induction ks with
  | nil => cases ha
  | cons b t ih =>
    have hbt : b ∉ t := (List.nodup_cons.mp hnd).1
    have ht : t.Nodup := (List.nodup_cons.mp hnd).2
    rcases List.mem_cons.mp ha with h | h
    · subst h
      have hz : (t.map (fun k => if a = k then x else 0)).sum = 0 := by
        apply List.sum_eq_zero
        intro y hy
        rcases List.mem_map.mp hy with ⟨k, hk, hky⟩
        have : a ≠ k := fun he => hbt (he ▸ hk)
        simpa [this] using hky.symm
      simp [hz]
    · have hab : a ≠ b := fun he => hbt (he ▸ h)
      simp [hab, ih ht h]

/-- Partitioning a sum along a duplicate-free list of keys covering every
element recovers the total sum. -/
theorem sum_map_filter_partition {α κ : Type} [DecidableEq κ]
    (key : α → κ) (val : α → ℚ) :
    ∀ (xs : List α) (ks : List κ), ks.Nodup → (∀ x ∈ xs, key x ∈ ks) →
      (ks.map (fun k => ((xs.filter (fun x => decide (key x = k))).map val).sum)).sum
        = (xs.map val).sum := by
  intro xs
  induction xs with
  | nil => intro ks _ _; simp
  | cons x t ih =>
    intro ks hnd hcov
    have hx : key x ∈ ks := hcov x (by simp)
    have hstep :
        (ks.map (fun k => (((x :: t).filter (fun y => decide (key y = k))).map val).sum))
          = ks.map (fun k =>
              (if key x = k then val x else 0) +
                ((t.filter (fun y => decide (key y = k))).map val).sum) := by
      apply List.map_congr_left
      intro k _
      by_cases hk : key x = k
      · simp [List.filter_cons, hk]
      · simp [List.filter_cons, hk]
    rw [hstep, sum_map_add, sum_map_indicator ks (key x) (val x) hnd hx,
      ih ks hnd (fun y hy => hcov y (by simp [hy]))]
    simp

/-- Looking up a key in an association list built by pairing each key with a
function value evaluates the function exactly on present keys. -/
theorem lookup_map_pair {κ β : Type} [DecidableEq κ] [BEq κ] [LawfulBEq κ]
    (ks : List κ) (f : κ → β) (c : κ) :
    ((ks.map (fun k => (k, f k))).lookup c) = if c ∈ ks then some (f c) else none := by
  induction ks with
  | nil => simp [List.lookup]
  | cons k t ih =>
    by_cases hc : c = k
    · subst hc; simp [List.lookup]
    · have : (c == k) = false := beq_false_of_ne hc
      simp [List.lookup, this, ih, hc]

/-- The keys of a groupSum table are the sorted distinct keys of the rows. -/
theorem groupSum_keys {κ : Type} [DecidableEq κ] (le : κ → κ → Prop) [DecidableRel le]
    (key : Row → κ) (rows : List Row) :
    (groupSum le key rows).map (fun p => p.1)
      = List.insertionSort le ((rows.map key).dedup) := by
  simp only [groupSum, List.map_map, Function.comp]
  exact List.map_id _

/-- A key occurs in a groupSum table exactly when some row carries it. -/
theorem mem_groupSum_keys {κ : Type} [DecidableEq κ] (le : κ → κ → Prop) [DecidableRel le]
    (key : Row → κ) (rows : List Row) (c : κ) :
    c ∈ (groupSum le key rows).map (fun p => p.1) ↔ ∃ r ∈ rows, key r = c := by
  rw [groupSum_keys, (List.perm_insertionSort le _).mem_iff, List.mem_dedup, List.mem_map]

/-- The zero-default lookup of a groupSum table is the filtered sum, with
absent keys correctly reported as the (empty) sum 0. -/
theorem getOr0_groupSum (le : String → String → Prop) [DecidableRel le]
    (key : Row → String) (rows : List Row) (c : String) :
    getOr0 (groupSum le key rows) c
      = sumAmounts (rows.filter (fun r => decide (key r = c))) := by
  unfold getOr0 groupSum
  rw [lookup_map_pair]
  by_cases hc : c ∈ List.insertionSort le ((rows.map key).dedup)
  · simp [hc]
  · have hnone : ∀ r ∈ rows, key r ≠ c := by
      intro r hr he
      exact hc (((List.perm_insertionSort le _).mem_iff).mpr
        (List.mem_dedup.mpr (he ▸ List.mem_map_of_mem key hr)))
    have : rows.filter (fun r => decide (key r = c)) = [] := by
      apply List.filter_eq_nil_iff.mpr
      intro r hr
      simpa using hnone r hr
    simp [hc, this, sumAmounts]

/-- The values of a groupSum table sum to the total over all rows: grouping
partitions the rows. -/
theorem groupSum_sum {κ : Type} [DecidableEq κ] (le : κ → κ → Prop) [DecidableRel le]
    (key : Row → κ) (rows : List Row) :
    ((groupSum le key rows).map (fun p => p.2)).sum = sumAmounts rows := by
  unfold groupSum
  rw [List.map_map]
  have hnd : (List.insertionSort le ((rows.map key).dedup)).Nodup :=
    ((List.perm_insertionSort le _).nodup_iff).mpr (List.nodup_dedup _)
  have hcov : ∀ r ∈ rows, key r ∈ List.insertionSort le ((rows.map key).dedup) := by
    intro r hr
    exact ((List.perm_insertionSort le _).mem_iff).mpr
      (List.mem_dedup.mpr (List.mem_map_of_mem key hr))
  simpa [Function.comp, sumAmounts] using
    sum_map_filter_partition key amt rows _ hnd hcov

/-- The result of nlargest is sorted by descending value. -/
theorem nlargest_sorted (n : Nat) (xs : List (String × ℚ)) :
    List.Pairwise valueDesc (nlargest n xs) :=
  (List.sorted_insertionSort valueDesc xs).sublist (List.take_sublist n _)

/-- The result of nsmallest is sorted by ascending value. -/
theorem nsmallest_sorted (n : Nat) (xs : List (String × ℚ)) :
    List.Pairwise valueAsc (nsmallest n xs) :=
  (List.sorted_insertionSort valueAsc xs).sublist (List.take_sublist n _)

/-- Every entry of nlargest comes from the input table. -/
theorem mem_of_mem_nlargest (n : Nat) (xs : List (String × ℚ)) (x : String × ℚ)
    (h : x ∈ nlargest n xs) : x ∈ xs :=
  (List.perm_insertionSort valueDesc xs).subset ((List.take_sublist n _).subset h)

/-- Every entry of nsmallest comes from the input table. -/
theorem mem_of_mem_nsmallest (n : Nat) (xs : List (String × ℚ)) (x : String × ℚ)
    (h : x ∈ nsmallest n xs) : x ∈ xs :=
  (List.perm_insertionSort valueAsc xs).subset ((List.take_sublist n _).subset h)

/-- nlargest returns min n (number of entries) entries. -/
theorem nlargest_length (n : Nat) (xs : List (String × ℚ)) :
    (nlargest n xs).length = min n xs.length := by
  simp [nlargest, (List.perm_insertionSort valueDesc xs).length_eq]

/-- nsmallest returns min n (number of entries) entries. -/
theorem nsmallest_length (n : Nat) (xs : List (String × ℚ)) :
    (nsmallest n xs).length = min n xs.length := by
  simp [nsmallest, (List.perm_insertionSort valueAsc xs).length_eq]

/-- Every input entry left out of nlargest is bounded by every entry kept:
the kept entries really are the largest values. -/
theorem nlargest_maximal (n : Nat) (xs : List (String × ℚ)) (x : String × ℚ)
    (hx : x ∈ xs) (hnx : x ∉ nlargest n xs) :
    ∀ y ∈ nlargest n xs, x.2 ≤ y.2 := by
  intro y hy
  have hxs : x ∈ List.insertionSort valueDesc xs :=
    ((List.perm_insertionSort valueDesc xs).mem_iff).mpr hx
  have hsplit := List.take_append_drop n (List.insertionSort valueDesc xs)
  have hsorted := List.sorted_insertionSort valueDesc xs
  rw [← hsplit] at hxs hsorted
  have hxdrop : x ∈ (List.insertionSort valueDesc xs).drop n := by
    rcases List.mem_append.mp hxs with h | h
    · exact absurd h hnx
    · exact h
  exact (List.pairwise_append.mp hsorted).2.2 y hy x hxdrop

/-- Every input entry left out of nsmallest bounds every entry kept from
below: the kept entries really are the smallest values. -/
theorem nsmallest_minimal (n : Nat) (xs : List (String × ℚ)) (x : String × ℚ)
    (hx : x ∈ xs) (hnx : x ∉ nsmallest n xs) :
    ∀ y ∈ nsmallest n xs, y.2 ≤ x.2 := by
  intro y hy
  have hxs : x ∈ List.insertionSort valueAsc xs :=
    ((List.perm_insertionSort valueAsc xs).mem_iff).mpr hx
  have hsplit := List.take_append_drop n (List.insertionSort valueAsc xs)
  have hsorted := List.sorted_insertionSort valueAsc xs
  rw [← hsplit] at hxs hsorted
  have hxdrop : x ∈ (List.insertionSort valueAsc xs).drop n := by
    rcases List.mem_append.mp hxs with h | h
    · exact absurd h hnx
    · exact h
  exact (List.pairwise_append.mp hsorted).2.2 y hy x hxdrop

/-- The sample variance used by the burst threshold is nonnegative. -/
theorem trendVar_nonneg (df : DataFrame) : 0 ≤ trendVar df := by
  unfold trendVar
  apply div_nonneg
  · apply List.sum_nonneg
    intro x hx
    rcases List.mem_map.mp hx with ⟨r, _, hr⟩
    exact hr ▸ sq_nonneg _
  · exact_mod_cast Nat.zero_le _

/-- The rational burst test agrees with the real-number comparison
amount > mean + 3 * sqrt variance whenever the variance is nonnegative. -/
theorem burstExceeds_iff (m v a : ℚ) (hv : 0 ≤ v) :
    burstExceeds m v a = true ↔ ((m : ℝ) + 3 * Real.sqrt ((v : ℚ) : ℝ) < ((a : ℚ) : ℝ)) := by
  unfold burstExceeds
  rw [Bool.and_eq_true, decide_eq_true_eq, decide_eq_true_eq]
  have hvR : (0 : ℝ) ≤ ((v : ℚ) : ℝ) := by exact_mod_cast hv
  constructor
  · rintro ⟨h1, h2⟩
    have h1R : (0 : ℝ) < (a : ℝ) - (m : ℝ) := by
      have : ((0 : ℚ) : ℝ) < ((a - m : ℚ) : ℝ) := by exact_mod_cast h1
      push_cast at this
      linarith
    have h2R : 9 * ((v : ℚ) : ℝ) < ((a : ℝ) - (m : ℝ)) ^ 2 := by
      have : ((9 * v : ℚ) : ℝ) < (((a - m) ^ 2 : ℚ) : ℝ) := by exact_mod_cast h2
      push_cast at this
      linarith
    have hs : Real.sqrt ((v : ℚ) : ℝ) < ((a : ℝ) - (m : ℝ)) / 3 :=
      (Real.sqrt_lt' (by linarith)).mpr (by nlinarith)
    linarith
  · intro h
    have hs0 := Real.sqrt_nonneg ((v : ℚ) : ℝ)
    have h1R : (0 : ℝ) < (a : ℝ) - (m : ℝ) := by linarith
    have hs : Real.sqrt ((v : ℚ) : ℝ) < ((a : ℝ) - (m : ℝ)) / 3 := by linarith
    have h4 := (Real.sqrt_lt' (by linarith : (0 : ℝ) < ((a : ℝ) - (m : ℝ)) / 3)).mp hs
    constructor
    · exact_mod_cast h1R
    · have h9 : 9 * ((v : ℚ) : ℝ) < ((a : ℝ) - (m : ℝ)) ^ 2 := by nlinarith
      have : ((9 * v : ℚ) : ℝ) < (((a - m) ^ 2 : ℚ) : ℝ) := by push_cast; linarith
      exact_mod_cast this

/-- The trend stage falls into its sentinel branch exactly when fewer than
two distinct debit months exist. -/
theorem lastTwoMonths_none_iff (df : DataFrame) :
    lastTwoMonths df = none ↔ (monthsOf (exactDebit df)).length < 2 := by
  unfold lastTwoMonths
  have hlen : (monthsOf (exactDebit df)).length
      = (monthsOf (exactDebit df)).reverse.length := (List.length_reverse _).symm
  rcases hrev : (monthsOf (exactDebit df)).reverse with _ | ⟨a, _ | ⟨b, t⟩⟩ <;>
    rw [hrev] at hlen <;> simp [hrev, hlen]

/-- Mapping a function over a list that moves one member yields a different
list. -/
theorem map_ne_self {α : Type} (f : α → α) (l : List α) (x : α)
    (hx : x ∈ l) (hfx : f x ≠ x) : l.map f ≠ l := by
  induction l with
  | nil => cases hx
  | cons a t ih =>
    rcases List.mem_cons.mp hx with h | h
    · subst h
      intro he
      exact hfx (List.cons_eq_cons.mp he).1
    · intro he
      exact ih h (List.cons_eq_cons.mp he).2

/-- map_category only ever produces the three budget buckets. -/
theorem map_category_range (cat : String) :
    map_category cat = "Needs" ∨ map_category cat = "Wants" ∨ map_category cat = "Other" := by
  simp only [map_category]
  split_ifs <;> simp

/-- Summing a function over a duplicate-free list of bucket labels equals
the sum of its three possible lookups. -/
theorem sum_over_buckets (l : List String) (f : String → ℚ) (hnd : l.Nodup)
    (hsub : ∀ b ∈ l, b = "Needs" ∨ b = "Wants" ∨ b = "Other") :
    (l.map f).sum =
      (if ("Needs") ∈ l then f ("Needs") else 0) +
      (if ("Wants") ∈ l then f ("Wants") else 0) +
      (if ("Other") ∈ l then f ("Other") else 0) := by
  induction l with
  | nil => simp
  | cons b t ih =>
    have hbt : b ∉ t := (List.nodup_cons.mp hnd).1
    have ht : t.Nodup := (List.nodup_cons.mp hnd).2
    have hrec := ih ht (fun c hc => hsub c (List.mem_cons_of_mem b hc))
    rcases hsub b (by simp) with h | h | h <;> subst h <;>
      simp +decide only [List.mem_cons, List.map_cons, List.sum_cons, hrec,
        false_or, true_or, or_false, if_true, eq_self_iff_true] <;>
      simp [hbt] <;> ring

/-- When the trend stage returns its analysis dictionary and the last two
months are known, the dictionary is the one built by mkTrendSummary. -/
theorem trendResultOf_ok (df : DataFrame) (lastM prevM : Month) (t : TrendSummary)
    (h2 : lastTwoMonths df = some (lastM, prevM))
    (hok : trendResultOf df = some (.ok t)) :
    t = mkTrendSummary df lastM prevM := by
  unfold trendResultOf analyze_trends_with_pandas at hok
  by_cases hdt : toDatetimeOk df
  · rw [if_pos hdt] at hok
    simp only [h2] at hok
    exact ((Option.some.inj hok).symm ▸ rfl : TrendResult.ok t = TrendResult.ok t) |> fun _ =>
      (TrendResult.ok.inj (Option.some.inj hok)).symm
  · rw [if_neg hdt] at hok
    simp at hok

/-- When the budget stage returns a baseline, it is the get-or-zero record
over the observed bucket averages. -/
theorem budgetResultOf_ok (df : DataFrame) (b : BudgetBaseline)
    (hok : budgetResultOf df = some b) :
    b = ⟨getOr0 (bucketAvgs df) ("Needs"), getOr0 (bucketAvgs df) ("Wants"),
         getOr0 (bucketAvgs df) ("Other"), ((bucketAvgs df).map (fun p => p.2)).sum⟩ := by
  unfold budgetResultOf create_budget_baseline_with_pandas at hok
  by_cases hdt : toDatetimeOk df
  · rw [if_pos hdt] at hok
    exact (Option.some.inj hok).symm
  · rw [if_neg hdt] at hok
    simp at hok

/-- Dividing each summand by a constant divides the sum. -/
theorem sum_map_div {α : Type} (l : List α) (f : α → ℚ) (n : ℚ) :
    (l.map (fun x => f x / n)).sum = (l.map f).sum / n := by
  induction l with
  | nil => simp
  | cons a t ih => simp [ih, add_div]

/-- Every observed budget bucket label is one of the three buckets. -/
theorem mem_budgetBuckets (df : DataFrame) (b : String) (hb : b ∈ budgetBuckets df) :
    b = "Needs" ∨ b = "Wants" ∨ b = "Other" := by
  unfold budgetBuckets at hb
  rw [List.mem_dedup, List.mem_map] at hb
  obtain ⟨p, hp, hpb⟩ := hb
  unfold budgetPairs groupSum at hp
  rw [List.mem_map] at hp
  obtain ⟨k, hk, hkp⟩ := hp
  have hk2 : k ∈ ((exactDebit df).map
      (fun r => (r.timestamp.getD 0, map_category r.category))).dedup :=
    ((List.perm_insertionSort monthCatLe _).mem_iff).mp hk
  rw [List.mem_dedup, List.mem_map] at hk2
  obtain ⟨r, _, hrk⟩ := hk2
  have : b = map_category r.category := by
    rw [← hpb, ← hkp, ← hrk]
  rw [this]
  exact map_category_range r.category

/-- A category label occurs in the outer-join key set exactly when a row of
one of the two month subsets carries it. -/
theorem mem_unionKeys (a b : List Row) (c : String) :
    c ∈ unionKeys (catSums a) (catSums b) ↔
      (∃ r ∈ a, r.category = c) ∨ (∃ r ∈ b, r.category = c) := by
  unfold unionKeys
  rw [(List.perm_insertionSort strLe _).mem_iff, List.mem_dedup, List.mem_append]
  unfold catSums
  rw [mem_groupSum_keys strLe (fun r => r.category) a c,
    mem_groupSum_keys strLe (fun r => r.category) b c]

/-- Membership characterization of the per-category change table: the outer
join runs over the categories of either month, with absent categories
contributing an (empty) sum 0. -/
theorem mem_categoryDeltas (lastRows prevRows : List Row) (c : String) (d : ℚ) :
    (c, d) ∈ categoryDeltas lastRows prevRows ↔
      ((∃ r ∈ lastRows, r.category = c) ∨ (∃ r ∈ prevRows, r.category = c)) ∧
        d = sumAmounts (lastRows.filter (fun r => decide (r.category = c)))
          - sumAmounts (prevRows.filter (fun r => decide (r.category = c))) := by
  unfold categoryDeltas
  rw [List.mem_map]
  constructor
  · rintro ⟨k, hk, hkd⟩
    obtain ⟨hc, hd⟩ := Prod.mk.inj hkd
    subst hc
    refine ⟨(mem_unionKeys lastRows prevRows k).mp hk, ?_⟩
    rw [← hd]
    unfold catSums
    rw [getOr0_groupSum, getOr0_groupSum]
  · rintro ⟨hc, hd⟩
    refine ⟨c, (mem_unionKeys lastRows prevRows c).mpr hc, ?_⟩
    unfold catSums
    rw [getOr0_groupSum, getOr0_groupSum, ← hd]

/-! ### Evaluations of the pipeline on the concrete frames -/

/-- The pipeline on df5: twenty percent growth, rent up by 200, no burst. -/
theorem eval_df5 : trendResultOf df5 = some (.ok t5) := by
  norm_num +decide [trendResultOf, analyze_trends_with_pandas, toDatetimeOk, prepFrame,
    addMonthCol, coerceAmounts, coerceAmount, lastTwoMonths, monthsOf, exactDebit,
    exactDebitFilter, rowsInMonth, mkTrendSummary, sumAmounts, amt, trendMean, trendVar,
    burstExceeds, categoryDeltas, unionKeys, catSums, groupSum, getOr0, nlargest, nsmallest,
    List.insertionSort, List.orderedInsert, valueDesc, valueAsc, strLe, strLeB, charListLeB,
    List.lookup, List.dedup, df5, t5]

/-- The pipeline on dfNeg: the positivity guard yields percentage 0 even
though the previous-month total is the nonzero value -100. -/
theorem eval_dfNeg : trendResultOf dfNeg = some (.ok tNeg) := by
  norm_num +decide [trendResultOf, analyze_trends_with_pandas, toDatetimeOk, prepFrame,
    addMonthCol, coerceAmounts, coerceAmount, lastTwoMonths, monthsOf, exactDebit,
    exactDebitFilter, rowsInMonth, mkTrendSummary, sumAmounts, amt, trendMean, trendVar,
    burstExceeds, categoryDeltas, unionKeys, catSums, groupSum, getOr0, nlargest, nsmallest,
    List.insertionSort, List.orderedInsert, valueDesc, valueAsc, strLe, strLeB, charListLeB,
    List.lookup, List.dedup, dfNeg, tNeg]

/-- The pipeline on dfC6: the negative delta -60 appears in the top-increase
list. -/
theorem eval_dfC6 : trendResultOf dfC6 = some (.ok tC6) := by
  norm_num +decide [trendResultOf, analyze_trends_with_pandas, toDatetimeOk, prepFrame,
    addMonthCol, coerceAmounts, coerceAmount, lastTwoMonths, monthsOf, exactDebit,
    exactDebitFilter, rowsInMonth, mkTrendSummary, sumAmounts, amt, trendMean, trendVar,
    burstExceeds, categoryDeltas, unionKeys, catSums, groupSum, getOr0, nlargest, nsmallest,
    List.insertionSort, List.orderedInsert, valueDesc, valueAsc, strLe, strLeB, charListLeB,
    List.lookup, List.dedup, dfC6, tC6]

/-- The pipeline on dfBurst: only the 10000 transaction is flagged. -/
theorem eval_dfBurst : trendResultOf dfBurst = some (.ok tBurst) := by
  norm_num +decide [trendResultOf, analyze_trends_with_pandas, toDatetimeOk, prepFrame,
    addMonthCol, coerceAmounts, coerceAmount, lastTwoMonths, monthsOf, exactDebit,
    exactDebitFilter, rowsInMonth, mkTrendSummary, sumAmounts, amt, trendMean, trendVar,
    burstExceeds, categoryDeltas, unionKeys, catSums, groupSum, getOr0, nlargest, nsmallest,
    List.insertionSort, List.orderedInsert, valueDesc, valueAsc, strLe, strLeB, charListLeB,
    List.lookup, List.dedup, dfBurst, tBurst]

/-- The budget stage on df7: averages 50 and 25 with total 75. -/
theorem eval_df7 : budgetResultOf df7 = some b7 := by
  norm_num +decide [budgetResultOf, create_budget_baseline_with_pandas, toDatetimeOk,
    prepFrame, addMonthCol, coerceAmounts, coerceAmount, exactDebit, exactDebitFilter,
    bucketAvgs, bucketAvg, budgetBuckets, budgetPairs, budgetMonths, groupSum, getOr0,
    sumAmounts, amt, map_category, needs_keywords, wants_keywords, containsStr, lowerStr,
    monthCatLe, monthCatLeB, strLeB, charListLeB, List.insertionSort, List.orderedInsert,
    List.lookup, List.dedup, List.pwFilter, List.filterMap, beq_eq_decide, df7, b7]

/-! ### Theorems for C1 and C9 -/

/-- C1, counterexample: the claimed keyword sets contain health (Needs) and
subscription (Wants), but map_category sends both category strings to Other,
so the claim as stated is false. -/
theorem claim_C1_counterexample :
    map_category ("health") = "Other" ∧ map_category ("subscription") = "Other" := by
  decide

/-- C1, amended: classification lowercases the input and returns Needs if it
contains any of groceries, utilities, rent, transport, bills, emi (health is
not in the code list), otherwise Wants if it contains any of shopping, food,
travel, entertainment, recharge, lifestyle (subscription is not in the code
list), otherwise Other; a category containing both a Needs and a Wants
keyword substring resolves to Needs. -/
theorem claim_C1_map_category (cat : String) :
    ((∃ k ∈ needs_keywords, containsStr (lowerStr cat) k = true) →
      map_category cat = "Needs")
  ∧ ((¬ ∃ k ∈ needs_keywords, containsStr (lowerStr cat) k = true) →
     (∃ k ∈ wants_keywords, containsStr (lowerStr cat) k = true) →
      map_category cat = "Wants")
  ∧ ((¬ ∃ k ∈ needs_keywords, containsStr (lowerStr cat) k = true) →
     (¬ ∃ k ∈ wants_keywords, containsStr (lowerStr cat) k = true) →
      map_category cat = "Other") := by
  refine ⟨fun h => ?_, fun hn hw => ?_, fun hn hw => ?_⟩
  · simp only [map_category]
    rw [if_pos (List.any_eq_true.mpr h)]
  · simp only [map_category]
    rw [if_neg, if_pos (List.any_eq_true.mpr hw)]
    exact fun hc => hn (List.any_eq_true.mp hc)
  · simp only [map_category]
    rw [if_neg, if_neg]
    · exact fun hc => hw (List.any_eq_true.mp hc)
    · exact fun hc => hn (List.any_eq_true.mp hc)

/-- C1, witness: a category containing both a Needs keyword (rent) and a
Wants keyword (food) classifies as Needs. -/
theorem claim_C1_witness : map_category ("Rent and Food") = "Needs" :=
  (claim_C1_map_category ("Rent and Food")).1 ⟨"rent", by decide, by decide⟩

/-- C9, counterexample: a table whose schema has user_id but lacks the
required column amount is loaded successfully, the full table is returned and
no error is reported, so the claim as stated is false. -/
theorem claim_C9_counterexample :
    load_transactions (".csv")
        ⟨["user_id", "timestamp", "direction", "category", "merchant_name"]⟩ =
      some ⟨["user_id", "timestamp", "direction", "category", "merchant_name"]⟩ := by
  decide

/-- C9, amended: of the six required columns only user_id is validated at
load time: for a supported extension the loader fails (returns no table at
all, hence no partial result) exactly when user_id is absent from the schema;
a table missing any of the other five columns is returned as loaded. -/
theorem claim_C9_loader (t : RawTable) :
    load_transactions (".csv") t = none ↔ ("user_id") ∉ t.columns := by
  simp only [load_transactions]
  rw [if_pos (by decide : supportedExtension (".csv") = true)]
  by_cases h : ("user_id") ∈ t.columns
  · simp [h]
  · simp [h]

/-- C9, witness: the amended loader characterization at a concrete table
that lacks user_id. -/
theorem claim_C9_witness :
    load_transactions (".csv") ⟨["timestamp", "amount"]⟩ = none :=
  (claim_C9_loader ⟨["timestamp", "amount"]⟩).mpr (by decide)

/-! ### Theorems for C2, C3 and C10 -/

/-- C2, counterexample: a record with direction Debit is included in the
spending aggregation (its summary counts the 5), but the trend and budget
debit filters compare the raw string with lowercase debit, so the same record
is excluded there: the budget baseline is all zeros for Debit and nonzero for
debit.  The claim that all three stages normalize identically is false. -/
theorem claim_C2_counterexample :
    profileResultOf dfDir = .ok ⟨[("x", 5)], [("x", 5)], [("m", 1)], 5, 1, 5, 1⟩
  ∧ budgetResultOf dfDir = some ⟨0, 0, 0, 0⟩
  ∧ budgetResultOf dfDirLower = some ⟨0, 0, 5, 5⟩ := by
  refine ⟨?_, ?_, ?_⟩
  · norm_num +decide [profileResultOf, analyze_transactions_with_pandas, profileDebit,
      profileDebitFilter, coerceAmounts, coerceAmount, lowerStr, stripStr, groupSum,
      nlargest, merchantCounts, sumAmounts, amt, strLe, strLeB, charListLeB,
      List.insertionSort, List.orderedInsert, valueDesc, List.dedup, List.pwFilter,
      beq_eq_decide, dfDir]
  · norm_num +decide [budgetResultOf, create_budget_baseline_with_pandas, toDatetimeOk,
      prepFrame, addMonthCol, coerceAmounts, coerceAmount, exactDebit, exactDebitFilter,
      bucketAvgs, bucketAvg, budgetBuckets, budgetPairs, budgetMonths, groupSum, getOr0,
      sumAmounts, amt, map_category, needs_keywords, wants_keywords, containsStr, lowerStr,
      monthCatLe, monthCatLeB, strLeB, charListLeB, List.insertionSort, List.orderedInsert,
      List.lookup, List.dedup, List.pwFilter, List.filterMap, beq_eq_decide, dfDir]
  · norm_num +decide [budgetResultOf, create_budget_baseline_with_pandas, toDatetimeOk,
      prepFrame, addMonthCol, coerceAmounts, coerceAmount, exactDebit, exactDebitFilter,
      bucketAvgs, bucketAvg, budgetBuckets, budgetPairs, budgetMonths, groupSum, getOr0,
      sumAmounts, amt, map_category, needs_keywords, wants_keywords, containsStr, lowerStr,
      monthCatLe, monthCatLeB, strLeB, charListLeB, List.insertionSort, List.orderedInsert,
      List.lookup, List.dedup, List.pwFilter, List.filterMap, beq_eq_decide, dfDirLower]

/-- C2, amended: direction is normalized (whitespace stripped, lowercased)
before filtering only in the spending aggregation stage; the trend and
budget stages filter on exact equality with lowercase debit, so a record
whose direction normalizes to debit is always in the spending debit subset
but is in the trend/budget debit subset exactly when its raw direction is
already the lowercase string. -/
theorem claim_C2_direction (df : DataFrame) (r : Row) (hr : r ∈ df.rows)
    (hnorm : lowerStr (stripStr r.direction) = "debit") :
    coerceAmount r ∈ profileDebit df
    ∧ (coerceAmount r ∈ exactDebit df ↔ r.direction = "debit") := by
  have hdir : (coerceAmount r).direction = r.direction := rfl
  constructor
  · unfold profileDebit
    apply List.mem_filter.mpr
    refine ⟨?_, ?_⟩
    · show coerceAmount r ∈ df.rows.map coerceAmount
      exact List.mem_map_of_mem coerceAmount hr
    · show profileDebitFilter (coerceAmount r) = true
      simp [profileDebitFilter, hdir, hnorm]
  · unfold exactDebit
    constructor
    · intro hmem
      have h2 := (List.mem_filter.mp hmem).2
      simpa [exactDebitFilter, hdir] using h2
    · intro hd
      apply List.mem_filter.mpr
      refine ⟨?_, ?_⟩
      · show coerceAmount r ∈ df.rows.map coerceAmount
        exact List.mem_map_of_mem coerceAmount hr
      · simp [exactDebitFilter, hdir, hd]

/-- C2, witness: the amended statement applied to the capitalized record. -/
theorem claim_C2_witness :
    coerceAmount ⟨some 1, some 5, "Debit", "x", "m"⟩ ∈ profileDebit dfDir
    ∧ (coerceAmount ⟨some 1, some 5, "Debit", "x", "m"⟩ ∈ exactDebit dfDir ↔
        (⟨some 1, some 5, "Debit", "x", "m"⟩ : Row).direction = "debit") :=
  claim_C2_direction dfDir ⟨some 1, some 5, "Debit", "x", "m"⟩ (by decide) (by decide)

/-- C3, counterexample: on an all-credit frame the budget stage does not
return a sentinel: it produces the numeric all-zero baseline even though its
debit-filtered set is empty, so the claimed third sentinel does not exist. -/
theorem claim_C3_counterexample :
    exactDebit dfCredit = [] ∧ budgetResultOf dfCredit = some ⟨0, 0, 0, 0⟩ := by
  refine ⟨by decide, ?_⟩
  norm_num +decide [budgetResultOf, create_budget_baseline_with_pandas, toDatetimeOk,
    prepFrame, addMonthCol, coerceAmounts, coerceAmount, exactDebit, exactDebitFilter,
    bucketAvgs, bucketAvg, budgetBuckets, budgetPairs, budgetMonths, groupSum, getOr0,
    sumAmounts, amt, map_category, needs_keywords, wants_keywords, containsStr, lowerStr,
    monthCatLe, monthCatLeB, strLeB, charListLeB, List.insertionSort, List.orderedInsert,
    List.lookup, List.dedup, List.pwFilter, List.filterMap, beq_eq_decide, dfCredit]

/-- C3, amended: the spending aggregator returns its no-spending sentinel on
an empty debit set and the trend engine returns its insufficient-data
sentinel below two distinct months, as claimed; the budget baseline engine
however has no sentinel and returns the numeric all-zero baseline on an
empty debit set. -/
theorem claim_C3_sentinels :
    (∀ df : DataFrame, profileDebit df = [] → profileResultOf df = .noSpendingData)
  ∧ (∀ df : DataFrame, toDatetimeOk df = true →
      (monthsOf (exactDebit df)).length < 2 → trendResultOf df = some .notEnoughData)
  ∧ (∀ df : DataFrame, toDatetimeOk df = true → exactDebit df = [] →
      budgetResultOf df = some ⟨0, 0, 0, 0⟩) := by
  refine ⟨fun df h => ?_, fun df hok hlen => ?_, fun df hok hdeb => ?_⟩
  · simp [profileResultOf, analyze_transactions_with_pandas, h]
  · have hnone := (lastTwoMonths_none_iff df).mpr hlen
    simp [trendResultOf, analyze_trends_with_pandas, hok, hnone]
  · have hpairs : budgetPairs df = [] := by
      simp [budgetPairs, groupSum, hdeb]
    have havgs : bucketAvgs df = [] := by
      simp [bucketAvgs, budgetBuckets, hpairs]
    simp [budgetResultOf, create_budget_baseline_with_pandas, hok, havgs, getOr0]

/-- C3, witness: the three amended branches at concrete frames: a no-debit
frame for the profile sentinel and the zero baseline, and a one-month frame
for the trend sentinel. -/
theorem claim_C3_witness :
    profileResultOf dfCredit = .noSpendingData
  ∧ trendResultOf dfOneMonth = some .notEnoughData
  ∧ budgetResultOf dfCredit = some ⟨0, 0, 0, 0⟩ :=
  ⟨claim_C3_sentinels.1 dfCredit (by decide),
   claim_C3_sentinels.2.1 dfOneMonth (by decide) (by decide),
   claim_C3_sentinels.2.2 dfCredit (by decide) (by decide)⟩

/-- C10, counterexample: the spending stage does not leave its input frame
unchanged: on a frame with a non-numeric amount the frame it hands back has
the coerced amount column. -/
theorem claim_C10_counterexample :
    (analyze_transactions_with_pandas dfMut).1 ≠ dfMut := by decide

/-- C10, amended: each stage returns a fresh summary but mutates the shared
frame rather than leaving it unchanged: the spending stage rewrites the
amount column in place, and the trend and budget stages additionally parse
timestamps and add the month column; whenever some amount entry is
non-numeric the written frame differs from the input, so later stages
observe the coerced frame, not the original input. -/
theorem claim_C10_mutation (df : DataFrame) :
    ((analyze_transactions_with_pandas df).1 = coerceAmounts df)
  ∧ (∀ x, analyze_trends_with_pandas df = .ok x → x.1 = prepFrame df)
  ∧ (∀ y, create_budget_baseline_with_pandas df = .ok y → y.1 = prepFrame df)
  ∧ ((∃ r ∈ df.rows, r.amount = none) → coerceAmounts df ≠ df) := by
  refine ⟨rfl, fun x hx => ?_, fun y hy => ?_, ?_⟩
  · unfold analyze_trends_with_pandas at hx
    by_cases hok : toDatetimeOk df
    · rw [if_pos hok] at hx
      rw [← Except.ok.inj hx]
    · rw [if_neg hok] at hx
      exact absurd hx (by simp)
  · unfold create_budget_baseline_with_pandas at hy
    by_cases hok : toDatetimeOk df
    · rw [if_pos hok] at hy
      rw [← Except.ok.inj hy]
    · rw [if_neg hok] at hy
      exact absurd hy (by simp)
  · rintro ⟨r, hr, hnone⟩ he
    have hrows : df.rows.map coerceAmount = df.rows := congrArg DataFrame.rows he
    refine map_ne_self coerceAmount df.rows r hr (fun hc => ?_) hrows
    have hamt := congrArg Row.amount hc
    rw [hnone] at hamt
    exact Option.noConfusion hamt

/-- C10, witness: the mutation statement applied to the frame with the
non-numeric amount. -/
theorem claim_C10_witness : coerceAmounts dfMut ≠ dfMut :=
  (claim_C10_mutation dfMut).2.2.2 ⟨⟨some 1, none, "debit", "x", "m"⟩, by decide, rfl⟩

/-! ### Theorems for C4, C5 and C6 -/

/-- C4 (confirmed): when the trend stage produces its analysis dictionary,
the burst report flags exactly the last-month debit transactions whose
amount strictly exceeds mean + 3 * (sample standard deviation), with mean
and variance taken over the whole debit subset (all months, see trendMean
and trendVar), and the report is the distinct no-burst value, not an empty
list, exactly when no transaction exceeds the threshold. -/
theorem claim_C4_burst (df : DataFrame) (lastM prevM : Month) (t : TrendSummary)
    (h2 : lastTwoMonths df = some (lastM, prevM))
    (hok : trendResultOf df = some (.ok t)) :
    (∀ rows, t.burst_report = .bursts rows →
       ∀ r : Row, r ∈ rows ↔ r ∈ rowsInMonth lastM (exactDebit df) ∧
         ((trendMean df : ℝ) + 3 * Real.sqrt ((trendVar df : ℚ) : ℝ) < ((amt r : ℚ) : ℝ)))
  ∧ (t.burst_report = .noBurst ↔
       ∀ r ∈ rowsInMonth lastM (exactDebit df),
         ¬ ((trendMean df : ℝ) + 3 * Real.sqrt ((trendVar df : ℚ) : ℝ) < ((amt r : ℚ) : ℝ))) := by
  have ht := trendResultOf_ok df lastM prevM t h2 hok
  subst ht
  constructor
  · intro rows hrep r
    simp only [mkTrendSummary] at hrep
    by_cases hemp : ((rowsInMonth lastM (exactDebit df)).filter
        (fun r => burstExceeds (trendMean df) (trendVar df) (amt r))).isEmpty
    · rw [if_pos hemp] at hrep
      exact BurstReport.noConfusion hrep
    · rw [if_neg hemp] at hrep
      rw [← BurstReport.bursts.inj hrep, List.mem_filter]
      exact and_congr_right (fun _ =>
        burstExceeds_iff (trendMean df) (trendVar df) (amt r) (trendVar_nonneg df))
  · simp only [mkTrendSummary]
    by_cases hemp : ((rowsInMonth lastM (exactDebit df)).filter
        (fun r => burstExceeds (trendMean df) (trendVar df) (amt r))).isEmpty
    · rw [if_pos hemp]
      simp only [true_iff]
      intro hr hmem hcond
      have hin : hr ∈ (rowsInMonth lastM (exactDebit df)).filter
          (fun r => burstExceeds (trendMean df) (trendVar df) (amt r)) :=
        List.mem_filter.mpr ⟨hmem,
          (burstExceeds_iff (trendMean df) (trendVar df) (amt hr) (trendVar_nonneg df)).mpr hcond⟩
      rw [List.isEmpty_iff] at hemp
      rw [hemp] at hin
      cases hin
    · rw [if_neg hemp]
      constructor
      · intro hrep
        exact BurstReport.noConfusion hrep
      · intro hall
        exfalso
        apply hemp
        rw [List.isEmpty_iff]
        apply List.filter_eq_nil_iff.mpr
        intro r hr hc
        exact hall r hr
          ((burstExceeds_iff (trendMean df) (trendVar df) (amt r) (trendVar_nonneg df)).mp hc)

/-- C4, witness: on the burst scenario (ten transactions of 100 across two
months, one of 10000 in the latest month) the flagged list is exactly the
10000 transaction: membership in it is equivalent to exceeding the
threshold. -/
theorem claim_C4_witness :
    (⟨some 2, some 10000, "debit", "x", "mBig"⟩ : Row)
        ∈ [(⟨some 2, some 10000, "debit", "x", "mBig"⟩ : Row)] ↔
      (⟨some 2, some 10000, "debit", "x", "mBig"⟩ : Row) ∈ rowsInMonth 2 (exactDebit dfBurst) ∧
        ((trendMean dfBurst : ℝ) + 3 * Real.sqrt ((trendVar dfBurst : ℚ) : ℝ)
          < ((amt (⟨some 2, some 10000, "debit", "x", "mBig"⟩ : Row) : ℚ) : ℝ)) :=
  (claim_C4_burst dfBurst 2 1 tBurst (by decide) eval_dfBurst).1
    [⟨some 2, some 10000, "debit", "x", "mBig"⟩] rfl
    ⟨some 2, some 10000, "debit", "x", "mBig"⟩

/-- C5, counterexample: with a previous-month total of -100 (nonzero), the
code reports a percentage of 0 because its guard tests positivity rather
than nonzeroness, while the claimed formula value is -200, so the claim as
stated is false. -/
theorem claim_C5_counterexample :
    trendResultOf dfNeg = some (.ok tNeg)
  ∧ tNeg.total_spend_change_pct = 0
  ∧ sumAmounts (rowsInMonth 1 (exactDebit dfNeg)) = -100
  ∧ (sumAmounts (rowsInMonth 2 (exactDebit dfNeg)) -
        sumAmounts (rowsInMonth 1 (exactDebit dfNeg))) /
      sumAmounts (rowsInMonth 1 (exactDebit dfNeg)) * 100 = -200 := by
  refine ⟨eval_dfNeg, rfl, ?_, ?_⟩ <;>
    norm_num +decide [rowsInMonth, exactDebit, exactDebitFilter, prepFrame, addMonthCol,
      coerceAmounts, coerceAmount, sumAmounts, amt, dfNeg]

/-- C5, amended: when the trend stage produces its analysis dictionary, the
total-change percentage equals (sum(last) - sum(prev)) / sum(prev) * 100
whenever sum(prev) > 0, and is 0 by the positivity guard whenever
sum(prev) <= 0 (in particular when sum(prev) = 0, where it is never an
exception or NaN, but also for negative totals, where the formula would give
a nonzero value). -/
theorem claim_C5_pct (df : DataFrame) (lastM prevM : Month) (t : TrendSummary)
    (h2 : lastTwoMonths df = some (lastM, prevM))
    (hok : trendResultOf df = some (.ok t)) :
    (0 < sumAmounts (rowsInMonth prevM (exactDebit df)) →
      t.total_spend_change_pct =
        (sumAmounts (rowsInMonth lastM (exactDebit df)) -
            sumAmounts (rowsInMonth prevM (exactDebit df))) /
          sumAmounts (rowsInMonth prevM (exactDebit df)) * 100)
  ∧ (sumAmounts (rowsInMonth prevM (exactDebit df)) ≤ 0 →
      t.total_spend_change_pct = 0) := by
  have ht := trendResultOf_ok df lastM prevM t h2 hok
  subst ht
  constructor
  · intro h
    simp only [mkTrendSummary]
    rw [if_pos h]
  · intro h
    simp only [mkTrendSummary]
    rw [if_neg (not_lt.mpr h)]

/-- C5, witness: the amended statement on the rent scenario, where the
previous total 1000 is positive and the percentage is the formula value. -/
theorem claim_C5_witness :
    (0 < sumAmounts (rowsInMonth 1 (exactDebit df5)) →
      t5.total_spend_change_pct =
        (sumAmounts (rowsInMonth 2 (exactDebit df5)) -
            sumAmounts (rowsInMonth 1 (exactDebit df5))) /
          sumAmounts (rowsInMonth 1 (exactDebit df5)) * 100)
  ∧ (sumAmounts (rowsInMonth 1 (exactDebit df5)) ≤ 0 →
      t5.total_spend_change_pct = 0) :=
  claim_C5_pct df5 2 1 t5 (by decide) eval_df5

/-- C6, counterexample: on a frame whose only category shrinks by 60 the
reported top-increase list is the single entry with delta -60, which is not
strictly positive, so the claim that the increase list keeps only strictly
positive deltas is false. -/
theorem claim_C6_counterexample :
    trendResultOf dfC6 = some (.ok tC6)
  ∧ tC6.top_category_increases = [("a", -60)]
  ∧ ((-60 : ℚ) < 0) :=
  ⟨eval_dfC6, rfl, by norm_num⟩

/-- C6, amended: when the trend stage produces its analysis dictionary, the
per-category change table outer-joins the last-month and previous-month
category sums with missing categories contributing an empty sum 0; the
reported top increases are the 3 largest deltas by value in descending order
regardless of sign (they are not restricted to strictly positive deltas),
and the top decreases are the 3 smallest deltas in ascending order. -/
theorem claim_C6_topk (df : DataFrame) (lastM prevM : Month) (t : TrendSummary)
    (h2 : lastTwoMonths df = some (lastM, prevM))
    (hok : trendResultOf df = some (.ok t)) :
    (∀ c d, ((c, d) ∈ categoryDeltas (rowsInMonth lastM (exactDebit df))
        (rowsInMonth prevM (exactDebit df)) ↔
        ((∃ r ∈ rowsInMonth lastM (exactDebit df), r.category = c) ∨
         (∃ r ∈ rowsInMonth prevM (exactDebit df), r.category = c)) ∧
          d = sumAmounts ((rowsInMonth lastM (exactDebit df)).filter
                (fun r => decide (r.category = c)))
            - sumAmounts ((rowsInMonth prevM (exactDebit df)).filter
                (fun r => decide (r.category = c)))))
  ∧ t.top_category_increases
      = nlargest 3 (categoryDeltas (rowsInMonth lastM (exactDebit df))
          (rowsInMonth prevM (exactDebit df)))
  ∧ t.top_category_decreases
      = nsmallest 3 (categoryDeltas (rowsInMonth lastM (exactDebit df))
          (rowsInMonth prevM (exactDebit df)))
  ∧ List.Pairwise valueDesc t.top_category_increases
  ∧ List.Pairwise valueAsc t.top_category_decreases
  ∧ t.top_category_increases.length
      = min 3 (categoryDeltas (rowsInMonth lastM (exactDebit df))
          (rowsInMonth prevM (exactDebit df))).length
  ∧ t.top_category_decreases.length
      = min 3 (categoryDeltas (rowsInMonth lastM (exactDebit df))
          (rowsInMonth prevM (exactDebit df))).length
  ∧ (∀ x ∈ categoryDeltas (rowsInMonth lastM (exactDebit df))
        (rowsInMonth prevM (exactDebit df)),
      x ∉ t.top_category_increases → ∀ y ∈ t.top_category_increases, x.2 ≤ y.2)
  ∧ (∀ x ∈ categoryDeltas (rowsInMonth lastM (exactDebit df))
        (rowsInMonth prevM (exactDebit df)),
      x ∉ t.top_category_decreases → ∀ y ∈ t.top_category_decreases, y.2 ≤ x.2) := by
  have ht := trendResultOf_ok df lastM prevM t h2 hok
  subst ht
  refine ⟨fun c d => mem_categoryDeltas _ _ c d, rfl, rfl,
    nlargest_sorted 3 _, nsmallest_sorted 3 _, nlargest_length 3 _, nsmallest_length 3 _,
    fun x hx hnx y hy => nlargest_maximal 3 _ x hx hnx y hy,
    fun x hx hnx y hy => nsmallest_minimal 3 _ x hx hnx y hy⟩

/-- C6, witness: the amended top-increase equation on the burst scenario
frame. -/
theorem claim_C6_witness :
    tBurst.top_category_increases
      = nlargest 3 (categoryDeltas (rowsInMonth 2 (exactDebit dfBurst))
          (rowsInMonth 1 (exactDebit dfBurst))) :=
  (claim_C6_topk dfBurst 2 1 tBurst (by decide) eval_dfBurst).2.1

/-! ### Theorems for C7 and C8 -/

/-- C7 (confirmed): when the budget stage produces a baseline from at least
one observed month, the grand total (the sum of the three per-bucket
monthly averages, unobserved month-bucket pairs counted as 0 through the
per-bucket sums over observed entries) equals the overall average monthly
debit total; every debit row classifies into exactly one bucket since
map_category is a function into the three labels. -/
theorem claim_C7_budget_total (df : DataFrame) (b : BudgetBaseline)
    (hok : budgetResultOf df = some b) (hm : budgetMonths df ≠ []) :
    b.total_avg_monthly_spend
      = sumAmounts (exactDebit df) / ((budgetMonths df).length : ℚ)
  ∧ b.total_avg_monthly_spend
      = b.avg_monthly_spend_needs + b.avg_monthly_spend_wants + b.avg_monthly_spend_other := by
  have hb := budgetResultOf_ok df b hok
  subst hb
  have hnd : (budgetBuckets df).Nodup := by
    unfold budgetBuckets
    exact List.nodup_dedup _
  have hcov : ∀ p ∈ budgetPairs df, p.1.2 ∈ budgetBuckets df := by
    intro p hp
    unfold budgetBuckets
    exact List.mem_dedup.mpr (List.mem_map_of_mem _ hp)
  have hcomp : ((fun p : String × ℚ => p.2) ∘ (fun bb => (bb, bucketAvg df bb)))
      = bucketAvg df := rfl
  constructor
  · show ((bucketAvgs df).map (fun p => p.2)).sum
      = sumAmounts (exactDebit df) / ((budgetMonths df).length : ℚ)
    unfold bucketAvgs
    rw [List.map_map, hcomp]
    have havg : (budgetBuckets df).map (bucketAvg df)
        = (budgetBuckets df).map (fun bb =>
            (((budgetPairs df).filter (fun p => decide (p.1.2 = bb))).map
              (fun p => p.2)).sum / ((budgetMonths df).length : ℚ)) := rfl
    rw [havg, sum_map_div]
    congr 1
    rw [sum_map_filter_partition (fun p : (Month × String) × ℚ => p.1.2)
      (fun p => p.2) (budgetPairs df) (budgetBuckets df) hnd hcov]
    exact groupSum_sum monthCatLe _ (exactDebit df)
  · show ((bucketAvgs df).map (fun p => p.2)).sum
      = getOr0 (bucketAvgs df) ("Needs") + getOr0 (bucketAvgs df) ("Wants")
        + getOr0 (bucketAvgs df) ("Other")
    have hget : ∀ c, getOr0 (bucketAvgs df) c
        = if c ∈ budgetBuckets df then bucketAvg df c else 0 := by
      intro c
      unfold getOr0 bucketAvgs
      rw [lookup_map_pair]
      by_cases h : c ∈ budgetBuckets df <;> simp [h]
    rw [hget, hget, hget]
    unfold bucketAvgs
    rw [List.map_map, hcomp]
    exact sum_over_buckets (budgetBuckets df) (bucketAvg df) hnd
      (fun bb hbb => mem_budgetBuckets df bb hbb)

/-- C7, witness: on the two-month Needs/Wants frame the grand total 75 is
both the overall monthly average 150 / 2 and the sum of the three bucket
averages 50 + 25 + 0. -/
theorem claim_C7_witness :
    b7.total_avg_monthly_spend
      = sumAmounts (exactDebit df7) / ((budgetMonths df7).length : ℚ)
  ∧ b7.total_avg_monthly_spend
      = b7.avg_monthly_spend_needs + b7.avg_monthly_spend_wants + b7.avg_monthly_spend_other :=
  claim_C7_budget_total df7 b7 eval_df7 (by decide)

/-- C8, counterexample: one unparseable timestamp makes both the trend and
the budget stage raise for that user; the row is not retained and no result
is produced from the remaining rows, so the claim as stated is false. -/
theorem claim_C8_counterexample :
    analyze_trends_with_pandas dfBadTs = .error toDatetimeError
  ∧ create_budget_baseline_with_pandas dfBadTs = .error toDatetimeError := by
  constructor <;> rfl

/-- C8, amended: pd.to_datetime is called with its default raising policy,
so any row whose timestamp fails to parse aborts the trend and budget stages
with an error for that user; only when every timestamp parses do both stages
produce results. -/
theorem claim_C8_to_datetime (df : DataFrame) :
    ((∃ r ∈ df.rows, r.timestamp = none) →
       analyze_trends_with_pandas df = .error toDatetimeError ∧
       create_budget_baseline_with_pandas df = .error toDatetimeError)
  ∧ (toDatetimeOk df = true →
       (∃ x, analyze_trends_with_pandas df = .ok x) ∧
       (∃ y, create_budget_baseline_with_pandas df = .ok y)) := by
  constructor
  · rintro ⟨r, hr, hnone⟩
    have hok : toDatetimeOk df = false := by
      cases hb : toDatetimeOk df
      · rfl
      · exfalso
        unfold toDatetimeOk at hb
        have h2 := List.all_eq_true.mp hb r hr
        rw [hnone] at h2
        simp at h2
    constructor
    · simp [analyze_trends_with_pandas, hok]
    · simp [create_budget_baseline_with_pandas, hok]
  · intro hok
    refine ⟨⟨(prepFrame df,
        match lastTwoMonths df with
        | some (lastM, prevM) => .ok (mkTrendSummary df lastM prevM)
        | none => .notEnoughData), ?_⟩,
      ⟨(prepFrame df,
        ⟨getOr0 (bucketAvgs df) ("Needs"), getOr0 (bucketAvgs df) ("Wants"),
         getOr0 (bucketAvgs df) ("Other"),
         ((bucketAvgs df).map (fun p => p.2)).sum⟩), ?_⟩⟩
    · simp [analyze_trends_with_pandas, hok]
    · simp [create_budget_baseline_with_pandas, hok]

/-- C8, witness: both branches of the amended statement at concrete frames:
the all-parseable rent frame yields results from both stages. -/
theorem claim_C8_witness :
    (∃ x, analyze_trends_with_pandas df5 = .ok x)
  ∧ (∃ y, create_budget_baseline_with_pandas df5 = .ok y) :=
  (claim_C8_to_datetime df5).2 (by decide)
